import Mathlib

/-!
Verification of the aRPG Timeline Discord bot's season-tracking core.

The development shallowly embeds the core of the bot:
  * `src/services/arpg_api.py` — data normalization, the season-key
    construction, the token manager and the cached API client;
  * `src/cogs/arpg_timeline.py` — the per-guild decision engine;
  * `src/database/__init__.py` — the seen-set and cache stores, modelled
    as explicit state.

Modelling conventions:
  * Timestamps are modelled as parsed UTC epoch seconds (`Int`); `none`
    stands for an absent or unparseable timestamp (the source's `_to_dt`
    returns `None` in exactly those cases).  One day is 86400 seconds and
    the source's `timedelta` comparisons are over real-valued seconds,
    which the integer model reflects faithfully for whole-second inputs.
  * Python truthiness of optional strings ("" and None are falsy) is
    carried by `strTruthy` / `pyOrStr` / `pyOrNone`.
  * JSON payload values reaching `str(...)` are modelled as strings.
  * Asynchronous effects (HTTP responses, database rows, the Discord
    event-creation collaborator) are passed in as explicit inputs, and
    the calls the code performs are recorded in an explicit trace.
-/

namespace ArpgTimeline

/-! ## Python truthiness helpers -/

/-- Python `a or b` specialised to an optional string against a string
default: `None` and `""` are falsy. -/
def pyOrStr : Option String → String → String
  | none, b => b
  | some s, b => if s = "" then b else s

/-- Python `x or None` on an optional string: collapses `""` to `None`. -/
def pyOrNone : Option String → Option String
  | none => none
  | some s => if s = "" then none else some s

/-- Truthiness of an optional string (`if token:` in the source). -/
def strTruthy : Option String → Bool
  | none => false
  | some s => s ≠ ""

/-- Python `str.title()` restricted to its behaviour on ASCII text: the
first character of every alphabetic run is uppercased, the rest of the
run lowercased. -/
def pyTitleGo : Bool → List Char → List Char
  | _, [] => []
  | prev, c :: cs =>
    if c.isAlpha then
      (if prev then c.toLower else c.toUpper) :: pyTitleGo true cs
    else
      c :: pyTitleGo false cs

/-- Python `s.title()`. -/
def pyTitle (s : String) : String := String.mk (pyTitleGo false s.data)

/-- Python `s.strip()`: drop leading and trailing whitespace. -/
def pyStrip (s : String) : String :=
  String.mk (((s.data.dropWhile Char.isWhitespace).reverse.dropWhile Char.isWhitespace).reverse)

/-- Python `s.lower()`. -/
def pyLower (s : String) : String := String.mk (s.data.map Char.toLower)

/-- Python `s.replace("-", " ")` (single-character replacement). -/
def pyDashToSpace (s : String) : String :=
  String.mk (s.data.map (fun c => if c = '-' then ' ' else c))

/-! ## Data model (`arpg_api.py` dataclasses) -/

/-- The `Game` dataclass. -/
structure Game where
  slug : String
  name : String
  season_keyword : Option String
  categories : List String
deriving DecidableEq

/-- The `Season` dataclass.  `starts_at` / `ends_at` are parsed UTC epoch
seconds (see module conventions). -/
structure Season where
  game_slug : String
  game_name : String
  season_key : String
  title : String
  starts_at : Option Int
  ends_at : Option Int
  url : Option String
  patch_notes_url : Option String
deriving DecidableEq

/-- A raw game payload item as `_normalize_game` receives it. -/
structure RawGame where
  slug : Option String
  name : Option String
  seasonKeyword : Option String
  categories : Option (List String)
deriving DecidableEq

/-- `_normalize_game(raw)`: trim the slug, reject empty slugs, default the
name to the title-cased slug, default categories to the empty list. -/
def normalizeGame (raw : RawGame) : Option Game :=
  let slug := pyStrip (pyOrStr raw.slug "")
  let name := pyStrip (pyOrStr raw.name (pyTitle slug))
  if slug = "" then none
  else some { slug := slug, name := name,
              season_keyword := raw.seasonKeyword,
              categories := raw.categories.getD [] }

/-- A `current` / `next` season block of a `/games/seasons` entry.  The
`start` / `stop` fields are the parsed values of the block's `start` /
`end` timestamps. -/
structure RawBlock where
  name : Option String
  id : Option String
  slug : Option String
  code : Option String
  url : Option String
  patchNotesUrl : Option String
  start : Option Int
  stop : Option Int
deriving DecidableEq

/-- The empty block (`{}` in the source; also stands for a block whose
keys are all `None`, which the source treats identically downstream). -/
def RawBlock.empty : RawBlock :=
  ⟨none, none, none, none, none, none, none, none⟩

/-- One entry of the `/games/seasons` payload. -/
structure RawEntry where
  game : Option String
  current : Option RawBlock
  next : Option RawBlock
deriving DecidableEq

/-- The name → id → slug → code → "" fallback the source uses as the base
of a season key (stated once here for use in theorem statements; the two
extraction functions below each carry their own inline copy, as the
source does). -/
def blockKeyBase (b : RawBlock) : String :=
  pyOrStr b.name (pyOrStr b.id (pyOrStr b.slug (pyOrStr b.code "")))

/-- `_current_season_from_entry(entry)`. -/
def currentSeasonFromEntry (e : RawEntry) : Option Season :=
  let game_slug := pyLower (pyStrip (pyOrStr e.game ""))
  let game_name := if game_slug = "" then "Unknown"
                   else pyTitle (pyDashToSpace game_slug)
  let block := e.current.getD RawBlock.empty
  let title := pyOrStr block.name (game_name ++ " Season")
  let starts_at := block.start
  let ends_at := block.stop
  let url := pyOrNone block.url
  let patch_notes_url := pyOrNone block.patchNotesUrl
  let key0 := pyOrStr block.name (pyOrStr block.id (pyOrStr block.slug (pyOrStr block.code "")))
  let season_key := match starts_at with
    | some t => key0 ++ ":" ++ toString t
    | none => key0
  if season_key = "" then none
  else some { game_slug := game_slug, game_name := game_name,
              season_key := season_key, title := title,
              starts_at := starts_at, ends_at := ends_at,
              url := url, patch_notes_url := patch_notes_url }

/-- `_next_season_from_entry(entry)`: returns `None` when the `next`
block is missing or empty; otherwise builds the Season with the same key
construction as the current block (intentionally no prefix, per the
source comment). -/
def nextSeasonFromEntry (e : RawEntry) : Option Season :=
  let game_slug := pyLower (pyStrip (pyOrStr e.game ""))
  let game_name := if game_slug = "" then "Unknown"
                   else pyTitle (pyDashToSpace game_slug)
  match e.next with
  | none => none
  | some block =>
    if block = RawBlock.empty then none
    else
      let title := pyOrStr block.name (game_name ++ " Upcoming")
      let starts_at := block.start
      let ends_at := block.stop
      let url := pyOrNone block.url
      let patch_notes_url := pyOrNone block.patchNotesUrl
      let season_key_base := pyOrStr block.name (pyOrStr block.id (pyOrStr block.slug (pyOrStr block.code "")))
      let season_key := match starts_at with
        | some t => season_key_base ++ ":" ++ toString t
        | none => season_key_base
      if season_key = "" then none
      else some { game_slug := game_slug, game_name := game_name,
                  season_key := season_key, title := title,
                  starts_at := starts_at, ends_at := ends_at,
                  url := url, patch_notes_url := patch_notes_url }

/-- The collection loop at the end of `fetch_active_seasons`: for each
entry, append the current Season, then the next Season unless a Season
with the same `(game_slug, season_key)` was already collected. -/
def seasonsFromEntries (entries : List RawEntry) : List Season :=
  entries.foldl (fun out entry =>
    let out1 := match currentSeasonFromEntry entry with
      | some cur => out ++ [cur]
      | none => out
    match nextSeasonFromEntry entry with
    | some nxt =>
      if out1.any (fun ex => ex.season_key = nxt.season_key && ex.game_slug = nxt.game_slug)
      then out1
      else out1 ++ [nxt]
    | none => out1) []

/-! ## Token manager (`_get_access_token`)

The client's mutable fields and the database's responses are explicit
inputs; the calls performed are recorded in a `TokenStep` trace. -/

/-- The client's token-related mutable state
(`_access_token`, `_token_expires_at`, `_token_fail_until`). -/
structure TokenState where
  access_token : Option String
  token_expires_at : Option Int
  token_fail_until : Option Int
deriving DecidableEq

/-- The rows the three ordered durable-storage lookups would return:
the endpoint-derived key, the legacy `"arpg_api"` key, and the
most-recently-expiring stored token.  Expiries are parsed epoch seconds
(`none` = absent or unparseable ISO string). -/
structure DbTokenRows where
  specific : Option String × Option Int
  legacy : Option String × Option Int
  latest : Option String × Option Int
deriving DecidableEq

/-- Externally visible steps of a `_get_access_token` run. -/
inductive TokenStep where
  | dbRead
  | liveFetch
  | dbWrite
deriving DecidableEq

/-- The `valid(exp)` closure: the expiry must lie strictly more than 60
seconds in the future. -/
def tokenValid (now : Int) : Option Int → Bool
  | some e => decide (e - now > 60)
  | none => false

/-- Whether the circuit breaker blocks the call
(`if self._token_fail_until and now < self._token_fail_until`). -/
def failBlocked (now : Int) : Option Int → Bool
  | some t => decide (now < t)
  | none => false

/-- `_get_access_token()`.  `db = none` models a client without a
database; `fetchRes` is the outcome `_fetch_token()` would produce
(`none` = fetch failure).  Returns the token result, the new client
state, and the trace of performed steps. -/
def getAccessToken (now : Int) (db : Option DbTokenRows)
    (fetchRes : Option (String × Int)) (st : TokenState) :
    Option String × TokenState × List TokenStep :=
  if failBlocked now st.token_fail_until then (none, st, [])
  else if strTruthy st.access_token && tokenValid now st.token_expires_at then
    (st.access_token, st, [])
  else
    let readTrace : List TokenStep := match db with
      | none => []
      | some _ => [TokenStep.dbRead]
    let recovered : Option (String × Int) := match db with
      | none => none
      | some rows =>
        -- specific -> legacy -> latest
        let picked := if strTruthy rows.specific.1 then rows.specific
                      else if strTruthy rows.legacy.1 then rows.legacy
                      else rows.latest
        match picked with
        | (some tok, some e) =>
          if tok ≠ "" && tokenValid now (some e) then some (tok, e) else none
        | _ => none
    match recovered with
    | some (tok, e) =>
      (some tok,
       { st with access_token := some tok, token_expires_at := some e },
       readTrace)
    | none =>
      match fetchRes with
      | none =>
        (none,
         { st with token_fail_until := some (now + 600) },
         readTrace ++ [TokenStep.liveFetch])
      | some (tok, e) =>
        (some tok,
         { access_token := some tok, token_expires_at := some e,
           token_fail_until := none },
         readTrace ++ [TokenStep.liveFetch]
           ++ (match db with | none => [] | some _ => [TokenStep.dbWrite]))

/-! ## Downstream fetches with 401 retry (`fetch_games`, `fetch_active_seasons`) -/

/-- Externally visible steps of a resource fetch. -/
inductive FetchStep where
  | tokenGet
  | httpGet
  | memInvalidate
  | dbInvalidate
deriving DecidableEq

/-- An HTTP response to the games endpoint (status plus the items list
the JSON body yields). -/
structure RespGames where
  status : Nat
  payload : List RawGame
deriving DecidableEq

/-- An HTTP response to the seasons endpoint. -/
structure RespSeasons where
  status : Nat
  payload : List RawEntry
deriving DecidableEq

/-- `fetch_games()`: GET once; on 401 clear the in-memory token, blank
the stored token row (best effort, when a database is attached), obtain
a fresh token and GET exactly once more.  A non-200 terminal response
yields the empty list. -/
def fetchGames (hasDb : Bool) (resp1 resp2 : RespGames) :
    List Game × List FetchStep :=
  let first : List FetchStep := [FetchStep.tokenGet, FetchStep.httpGet]
  if resp1.status = 401 then
    let retried := first ++ [FetchStep.memInvalidate]
      ++ (if hasDb then [FetchStep.dbInvalidate] else [])
      ++ [FetchStep.tokenGet, FetchStep.httpGet]
    if resp2.status ≠ 200 then ([], retried)
    else (resp2.payload.filterMap normalizeGame, retried)
  else if resp1.status ≠ 200 then ([], first)
  else (resp1.payload.filterMap normalizeGame, first)

/-- `fetch_active_seasons()`: GET once; on 401 clear the in-memory token
only, obtain a fresh token and GET exactly once more.  A non-200
terminal response yields the empty list. -/
def fetchActiveSeasons (hasDb : Bool) (resp1 resp2 : RespSeasons) :
    List Season × List FetchStep :=
  let first : List FetchStep := [FetchStep.tokenGet, FetchStep.httpGet]
  if resp1.status = 401 then
    let retried := first ++ [FetchStep.memInvalidate, FetchStep.tokenGet, FetchStep.httpGet]
    if resp2.status ≠ 200 then ([], retried)
    else (seasonsFromEntries resp2.payload, retried)
  else if resp1.status ≠ 200 then ([], first)
  else (seasonsFromEntries resp1.payload, first)

/-! ## TTL caches (`get_cached_games`, `get_cached_active_seasons`)

The durable cache entry (already deserialized, with parsed expiry epoch
seconds) and the live-fetch outcome are explicit inputs; the Bool result
reports whether the live fetch path was taken. -/

/-- `get_cached_games`: serve the cached list only when its expiry is
strictly in the future, otherwise fall through to the live fetch. -/
def getCachedGames (now : Int) (cache : Option (List RawGame × Int))
    (fetched : List Game) : List Game × Bool :=
  match cache with
  | some (raws, e) =>
    if e > now then (raws.filterMap normalizeGame, false)
    else (fetched, true)
  | none => (fetched, true)

/-- `get_cached_active_seasons`: same pattern keyed `seasons:active`,
with a force-refresh bypass. -/
def getCachedActiveSeasons (now : Int) (forceRefresh : Bool)
    (cache : Option (List Season × Int)) (fetched : List Season) :
    List Season × Bool :=
  if forceRefresh then (fetched, true)
  else match cache with
    | some (cached, e) =>
      if e > now then (cached, false)
      else (fetched, true)
    | none => (fetched, true)

/-! ## Guild Decision Engine (`_process_guild` in `arpg_timeline.py`)

Per-guild configuration and the seen-set live in explicit state; the
Discord event-creation collaborator is a Boolean-valued input function
("did the scheduled-event creation succeed").  The engine's external
calls are recorded in an `EngineStep` trace, with the three
`mark_season_seen` call sites distinguished the way the source's log
lines distinguish them. -/

/-- A guild's persisted configuration: its id, the
`notifications_enabled` gate, and the per-game toggle rows
(`game_slug -> enabled`, absent rows default to 0 = disabled). -/
structure GuildCfg where
  id : Nat
  enabled : Bool
  toggles : List (String × Nat)
deriving DecidableEq

/-- The durable seen-set: `(guild_id, game_slug, season_key)` triples. -/
structure EngineDb where
  seen : List (Nat × String × String)
deriving DecidableEq

/-- `db.is_season_seen(guild_id, game_slug, season_key)`. -/
def isSeen (db : EngineDb) (gid : Nat) (slug key : String) : Bool :=
  decide ((gid, slug, key) ∈ db.seen)

/-- `db.mark_season_seen` (`INSERT OR IGNORE`): add the triple if absent. -/
def markSeen (db : EngineDb) (gid : Nat) (slug key : String) : EngineDb :=
  if isSeen db gid slug key then db else ⟨(gid, slug, key) :: db.seen⟩

/-- `game_toggles.get(s.game_slug, 0)`. -/
def toggleVal (toggles : List (String × Nat)) (slug : String) : Nat :=
  match toggles.lookup slug with
  | some v => v
  | none => 0

/-- Externally visible engine calls. -/
inductive EngineStep where
  | createCall (gid : Nat) (slug key : String)
  | markBootstrap (gid : Nat) (slug key : String)
  | markAfterEvent (gid : Nat) (slug key : String)
  | markStarted (gid : Nat) (slug key : String)
deriving DecidableEq

/-- The guild a step belongs to. -/
def EngineStep.gid : EngineStep → Nat
  | .createCall g _ _ => g
  | .markBootstrap g _ _ => g
  | .markAfterEvent g _ _ => g
  | .markStarted g _ _ => g

/-- The body of `_process_guild`'s season loop for one season. -/
def processSeason (now : Int) (createEvent : Season → Bool) (gid : Nat)
    (toggles : List (String × Nat)) (db : EngineDb) (s : Season) :
    EngineDb × List EngineStep :=
  if toggleVal toggles s.game_slug = 0 then (db, [])
  else if isSeen db gid s.game_slug s.season_key then (db, [])
  else
    let upcoming := match s.starts_at with
      | some t => decide (t > now)
      | none => false
    let pastLong := match s.starts_at with
      | some t => decide (now - t > 86400)
      | none => false
    if !upcoming && pastLong then
      (markSeen db gid s.game_slug s.season_key,
       [EngineStep.markBootstrap gid s.game_slug s.season_key])
    else if upcoming then
      if createEvent s then
        (markSeen db gid s.game_slug s.season_key,
         [EngineStep.createCall gid s.game_slug s.season_key,
          EngineStep.markAfterEvent gid s.game_slug s.season_key])
      else
        (db, [EngineStep.createCall gid s.game_slug s.season_key])
    else
      (markSeen db gid s.game_slug s.season_key,
       [EngineStep.markStarted gid s.game_slug s.season_key])

/-- The season loop of `_process_guild`. -/
def runSeasons (now : Int) (createEvent : Season → Bool) (gid : Nat)
    (toggles : List (String × Nat)) :
    EngineDb → List Season → EngineDb × List EngineStep
  | db, [] => (db, [])
  | db, s :: rest =>
    let step := processSeason now createEvent gid toggles db s
    let tail := runSeasons now createEvent gid toggles step.1 rest
    (tail.1, step.2 ++ tail.2)

/-- `_process_guild(guild, seasons)`: return immediately unless the
guild's notifications are enabled, else run the season loop. -/
def processGuild (now : Int) (createEvent : Season → Bool) (g : GuildCfg)
    (db : EngineDb) (seasons : List Season) : EngineDb × List EngineStep :=
  if g.enabled then runSeasons now createEvent g.id g.toggles db seasons
  else (db, [])

/-! ### Fault-injected engine (for the fault-isolation analysis)

`faulty gid slug key = true` means the `db.is_season_seen` call for that
triple raises.  The season loop in the source has no per-season handler,
so a raised fault aborts the remaining seasons of the guild; the Boolean
in the result tells whether the run ended in a fault.  The poll loop
(`poll_seasons_task`) wraps each guild in `try/except`, so `pollCycle`
swallows the fault and moves to the next guild. -/

/-- The season loop with the seen-lookup's possible exception explicit. -/
def runSeasonsE (now : Int) (createEvent : Season → Bool) (gid : Nat)
    (toggles : List (String × Nat)) (faulty : Nat → String → String → Bool) :
    EngineDb → List Season → EngineDb × List EngineStep × Bool
  | db, [] => (db, [], false)
  | db, s :: rest =>
    if toggleVal toggles s.game_slug = 0 then
      runSeasonsE now createEvent gid toggles faulty db rest
    else if faulty gid s.game_slug s.season_key then
      (db, [], true)
    else
      let step := processSeason now createEvent gid toggles db s
      let tail := runSeasonsE now createEvent gid toggles faulty step.1 rest
      (tail.1, step.2 ++ tail.2.1, tail.2.2)

/-- `_process_guild` with fault injection. -/
def processGuildE (now : Int) (createEvent : Season → Bool) (g : GuildCfg)
    (faulty : Nat → String → String → Bool) (db : EngineDb)
    (seasons : List Season) : EngineDb × List EngineStep × Bool :=
  if g.enabled then runSeasonsE now createEvent g.id g.toggles faulty db seasons
  else (db, [], false)

/-- The guild loop of `poll_seasons_task`: each guild's processing is
wrapped in `try/except`, so a fault is logged and the loop continues
with the next guild on the state reached so far. -/
def pollCycle (now : Int) (createEvent : Season → Bool)
    (faulty : Nat → String → String → Bool) :
    List GuildCfg → EngineDb → List Season → EngineDb × List EngineStep
  | [], db, _ => (db, [])
  | g :: rest, db, seasons =>
    let this := processGuildE now createEvent g faulty db seasons
    let tail := pollCycle now createEvent faulty rest this.1 seasons
    (tail.1, this.2.1 ++ tail.2)

/-! ## Theorems -/

/-- C1: for every seasons-API entry, the season key computed from the
`current` block equals the one computed from the `next` block whenever
the two blocks carry the same name → id → slug → code fallback value and
the same start timestamp: the key-construction algorithm is identical in
`_current_season_from_entry` and `_next_season_from_entry`. -/
theorem current_next_season_key_agree (e1 e2 : RawEntry) (s1 s2 : Season)
    (h1 : currentSeasonFromEntry e1 = some s1)
    (h2 : nextSeasonFromEntry e2 = some s2)
    (hb : blockKeyBase (e1.current.getD RawBlock.empty)
        = blockKeyBase (e2.next.getD RawBlock.empty))
    (hs : (e1.current.getD RawBlock.empty).start
        = (e2.next.getD RawBlock.empty).start) :
    s1.season_key = s2.season_key := by
  simp only [currentSeasonFromEntry] at h1
  cases he : e2.next with
  | none =>
    simp only [nextSeasonFromEntry, he] at h2
    exact Option.noConfusion h2
  | some b =>
    simp only [nextSeasonFromEntry, he] at h2
    rw [he] at hb hs
    simp only [Option.getD_some] at hb hs
    split at h2
    · exact absurd h2 (by simp)
    · split at h2
      · exact absurd h2 (by simp)
      · split at h1
        · exact absurd h1 (by simp)
        · have e1k := congrArg Season.season_key (Option.some.inj h1)
          have e2k := congrArg Season.season_key (Option.some.inj h2)
          simp only at e1k e2k
          rw [← e1k, ← e2k]
          simp only [blockKeyBase] at hb
          rw [hs, hb]

/-- Witness for C1 at a concrete entry pair: a season first published in
the `next` block and later in the `current` block yields the same key. -/
theorem current_next_season_key_agree_witness :
    (currentSeasonFromEntry
        ⟨some "poe2", some ⟨some "Dawn", none, none, none, none, none, some 100, none⟩, none⟩).map
        Season.season_key
      = (nextSeasonFromEntry
        ⟨some "poe2", none, some ⟨some "Dawn", none, none, none, none, none, some 100, none⟩⟩).map
        Season.season_key := by
  have h := current_next_season_key_agree
    ⟨some "poe2", some ⟨some "Dawn", none, none, none, none, none, some 100, none⟩, none⟩
    ⟨some "poe2", none, some ⟨some "Dawn", none, none, none, none, none, some 100, none⟩⟩
    { game_slug := "poe2", game_name := "Poe2", season_key := "Dawn:100",
      title := "Dawn", starts_at := some 100, ends_at := none,
      url := none, patch_notes_url := none }
    { game_slug := "poe2", game_name := "Poe2", season_key := "Dawn:100",
      title := "Dawn", starts_at := some 100, ends_at := none,
      url := none, patch_notes_url := none }
    (by decide) (by decide) (by decide) (by decide)
  decide

/-- C2 counterexample: on a 401 first response, `fetch_active_seasons`
does not touch the durable token store — only `fetch_games` blanks the
stored row — so the claim that every downstream fetch invalidates the
token "in memory and, best-effort, in durable storage" fails on the
seasons fetch even with a database attached. -/
theorem seasons_fetch_skips_db_invalidate :
    (fetchActiveSeasons true ⟨401, []⟩ ⟨200, []⟩).2.contains FetchStep.dbInvalidate = false
    ∧ (fetchGames true ⟨401, []⟩ ⟨200, []⟩).2.contains FetchStep.dbInvalidate = true := by
  constructor <;> rfl

/-- C2 amended: on a 401 first response both fetches clear the in-memory
token, obtain a fresh token, and retry the request exactly once (a
non-200 second response yields the empty list, with no further retry);
but only the games fetch also blanks the durable token row — the seasons
fetch leaves durable storage untouched. -/
theorem fetch_401_single_retry (hasDb : Bool) (r1 r2 : RespGames)
    (q1 q2 : RespSeasons) (h1 : r1.status = 401) (h2 : q1.status = 401) :
    fetchGames hasDb r1 r2
      = ((if r2.status = 200 then r2.payload.filterMap normalizeGame else []),
         [FetchStep.tokenGet, FetchStep.httpGet, FetchStep.memInvalidate]
           ++ (if hasDb then [FetchStep.dbInvalidate] else [])
           ++ [FetchStep.tokenGet, FetchStep.httpGet])
    ∧ fetchActiveSeasons hasDb q1 q2
      = ((if q2.status = 200 then seasonsFromEntries q2.payload else []),
         [FetchStep.tokenGet, FetchStep.httpGet, FetchStep.memInvalidate,
          FetchStep.tokenGet, FetchStep.httpGet]) := by
  constructor
  · simp only [fetchGames, h1, if_pos rfl]
    by_cases hr : r2.status = 200 <;> simp [hr]
  · simp only [fetchActiveSeasons, h2, if_pos rfl]
    by_cases hq : q2.status = 200 <;> simp [hq]

/-- Witness for C2's amended theorem: a 401 followed by a 500 on the
retry returns the empty list after exactly two GETs. -/
theorem fetch_401_single_retry_witness :
    fetchGames true ⟨401, []⟩ ⟨500, []⟩
      = ([], [FetchStep.tokenGet, FetchStep.httpGet, FetchStep.memInvalidate,
              FetchStep.dbInvalidate, FetchStep.tokenGet, FetchStep.httpGet])
    ∧ fetchActiveSeasons true ⟨401, []⟩ ⟨500, []⟩
      = ([], [FetchStep.tokenGet, FetchStep.httpGet, FetchStep.memInvalidate,
              FetchStep.tokenGet, FetchStep.httpGet]) := by
  have h := fetch_401_single_retry true ⟨401, []⟩ ⟨500, []⟩ ⟨401, []⟩ ⟨500, []⟩ rfl rfl
  exact ⟨h.1, h.2⟩

/-! ### Seen-set bookkeeping lemmas -/

lemma isSeen_markSeen_self (db : EngineDb) (g : Nat) (a b : String) :
    isSeen (markSeen db g a b) g a b = true := by
  unfold markSeen
  by_cases h : isSeen db g a b = true
  · simp [h]
  · simp only [h, if_neg, Bool.not_eq_true] at *
    simp [h, isSeen, List.mem_cons]

lemma isSeen_markSeen_mono (db : EngineDb) (g g' : Nat) (a b a' b' : String)
    (h : isSeen db g a b = true) :
    isSeen (markSeen db g' a' b') g a b = true := by
  unfold markSeen
  split
  · exact h
  · simp only [isSeen, decide_eq_true_eq] at h ⊢
    exact List.mem_cons_of_mem _ h

lemma processSeason_fst (now : Int) (ce : Season → Bool) (gid : Nat)
    (toggles : List (String × Nat)) (db : EngineDb) (s : Season) :
    (processSeason now ce gid toggles db s).1 = db
    ∨ (processSeason now ce gid toggles db s).1
        = markSeen db gid s.game_slug s.season_key := by
  unfold processSeason
  split
  · exact Or.inl rfl
  · split
    · exact Or.inl rfl
    · cases hst : s.starts_at with
      | none => simp [hst]
      | some t =>
        by_cases hup : t > now
        · by_cases hc : ce s <;> simp [hst, hup, hc]
        · by_cases hp : now - t > 86400 <;> simp [hst, hup, hp]

lemma processSeason_seen_mono (now : Int) (ce : Season → Bool) (gid : Nat)
    (toggles : List (String × Nat)) (db : EngineDb) (s : Season)
    (g : Nat) (a b : String) (h : isSeen db g a b = true) :
    isSeen (processSeason now ce gid toggles db s).1 g a b = true := by
  rcases processSeason_fst now ce gid toggles db s with h1 | h1 <;> rw [h1]
  · exact h
  · exact isSeen_markSeen_mono _ _ _ _ _ _ _ h

lemma runSeasons_seen_mono (now : Int) (ce : Season → Bool) (gid : Nat)
    (toggles : List (String × Nat)) (seasons : List Season) (db : EngineDb)
    (g : Nat) (a b : String) (h : isSeen db g a b = true) :
    isSeen (runSeasons now ce gid toggles db seasons).1 g a b = true := by
  induction seasons generalizing db with
  | nil => exact h
  | cons s rest ih =>
    simp only [runSeasons]
    exact ih _ (processSeason_seen_mono now ce gid toggles db s g a b h)

lemma processSeason_gated (now : Int) (ce : Season → Bool) (gid : Nat)
    (toggles : List (String × Nat)) (db : EngineDb) (s : Season)
    (h : toggleVal toggles s.game_slug = 0
         ∨ isSeen db gid s.game_slug s.season_key = true) :
    processSeason now ce gid toggles db s = (db, []) := by
  rcases h with h | h <;> simp [processSeason, h]

lemma processSeason_marks (now : Int) (ce : Season → Bool) (gid : Nat)
    (toggles : List (String × Nat)) (db : EngineDb) (s : Season)
    (htog : toggleVal toggles s.game_slug ≠ 0) (hce : ce s = true) :
    isSeen (processSeason now ce gid toggles db s).1
      gid s.game_slug s.season_key = true := by
  unfold processSeason
  simp only [if_neg htog]
  split
  · assumption
  · cases hst : s.starts_at with
    | none => simp [hst, isSeen_markSeen_self]
    | some t =>
      by_cases hup : t > now
      · simp [hst, hup, hce, isSeen_markSeen_self]
      · by_cases hp : now - t > 86400 <;>
          simp [hst, hup, hp, isSeen_markSeen_self]

lemma runSeasons_all_marked (now : Int) (ce : Season → Bool) (gid : Nat)
    (toggles : List (String × Nat)) (seasons : List Season) (db : EngineDb)
    (hce : ∀ s, ce s = true) :
    ∀ s ∈ seasons, toggleVal toggles s.game_slug ≠ 0 →
      isSeen (runSeasons now ce gid toggles db seasons).1
        gid s.game_slug s.season_key = true := by
  induction seasons generalizing db with
  | nil => intro s hs; exact absurd hs (List.not_mem_nil s)
  | cons s0 rest ih =>
    intro s hs htog
    rcases List.mem_cons.mp hs with rfl | hs
    · simp only [runSeasons]
      exact runSeasons_seen_mono now ce gid toggles rest _ _ _ _
        (processSeason_marks now ce gid toggles db s htog (hce s))
    · simp only [runSeasons]
      exact ih _ s hs htog

lemma runSeasons_noop (now : Int) (ce : Season → Bool) (gid : Nat)
    (toggles : List (String × Nat)) (seasons : List Season) (db : EngineDb)
    (h : ∀ s ∈ seasons, toggleVal toggles s.game_slug = 0
         ∨ isSeen db gid s.game_slug s.season_key = true) :
    runSeasons now ce gid toggles db seasons = (db, []) := by
  induction seasons with
  | nil => rfl
  | cons s0 rest ih =>
    have h0 := h s0 (List.mem_cons_self s0 rest)
    simp only [runSeasons, processSeason_gated now ce gid toggles db s0 h0]
    simpa using ih (fun s hs => h s (List.mem_cons_of_mem s0 hs))

/-- C3 counterexample: with an event-creation collaborator that reports
failure, an upcoming season triggers an event-creation call in the first
pass, is left out of the seen-set, and triggers a second event-creation
call in the second pass — it is not gated by the seen-set or the
toggle/enable gates, contrary to the claim as stated. -/
theorem second_pass_repeats_failed_create :
    (processGuild 0 (fun _ => false) ⟨1, true, [("poe2", 1)]⟩
        (processGuild 0 (fun _ => false) ⟨1, true, [("poe2", 1)]⟩ ⟨[]⟩
          [⟨"poe2", "Poe2", "S1", "S1", some 10, none, none, none⟩]).1
        [⟨"poe2", "Poe2", "S1", "S1", some 10, none, none, none⟩]).2
      = [EngineStep.createCall 1 "poe2" "S1"] := by
  rfl

/-- C3 amended: running the Guild Decision Engine twice in succession
with the same season list, no external state change, and an
event-creation collaborator that reports success on every call produces
no duplicate event-creation calls: the second pass performs no calls at
all and leaves the state unchanged (every season is gated by the
seen-set check or by the guild enablement / per-game toggle gates).  A
season whose first-pass event creation failed is deliberately retried
and is not covered. -/
theorem engine_idempotent_when_creates_succeed (now : Int)
    (ce : Season → Bool) (g : GuildCfg) (db : EngineDb)
    (seasons : List Season) (hce : ∀ s, ce s = true) :
    processGuild now ce g (processGuild now ce g db seasons).1 seasons
      = ((processGuild now ce g db seasons).1, []) := by
  unfold processGuild
  by_cases hen : g.enabled
  · simp only [hen, if_pos]
    apply runSeasons_noop
    intro s hs
    by_cases htog : toggleVal g.toggles s.game_slug = 0
    · exact Or.inl htog
    · exact Or.inr
        (runSeasons_all_marked now ce g.id g.toggles seasons db hce s hs htog)
  · simp [hen]

/-- Witness for C3's amended theorem at a concrete guild and season list:
two seasons, one upcoming, one long past; the second pass is a no-op. -/
theorem engine_idempotent_when_creates_succeed_witness :
    processGuild 0 (fun _ => true) ⟨1, true, [("poe2", 1)]⟩
        (processGuild 0 (fun _ => true) ⟨1, true, [("poe2", 1)]⟩ ⟨[]⟩
          [⟨"poe2", "Poe2", "S1", "S1", some 10, none, none, none⟩,
           ⟨"poe2", "Poe2", "S0", "S0", some (-200000), none, none, none⟩]).1
        [⟨"poe2", "Poe2", "S1", "S1", some 10, none, none, none⟩,
         ⟨"poe2", "Poe2", "S0", "S0", some (-200000), none, none, none⟩]
      = ((processGuild 0 (fun _ => true) ⟨1, true, [("poe2", 1)]⟩ ⟨[]⟩
          [⟨"poe2", "Poe2", "S1", "S1", some 10, none, none, none⟩,
           ⟨"poe2", "Poe2", "S0", "S0", some (-200000), none, none, none⟩]).1,
         []) :=
  engine_idempotent_when_creates_succeed 0 (fun _ => true)
    ⟨1, true, [("poe2", 1)]⟩ ⟨[]⟩
    [⟨"poe2", "Poe2", "S1", "S1", some 10, none, none, none⟩,
     ⟨"poe2", "Poe2", "S0", "S0", some (-200000), none, none, none⟩]
    (fun _ => rfl)

/-- C4: for an upcoming season that passes the enablement, toggle and
seen-set gates, a failed event creation leaves the state unchanged (the
triple stays absent from the seen-set, so the next cycle retries it),
and a successful creation emits the event-creation call first and the
mark-seen call after, each exactly once.  The second equation shows the
follow-up cycle: a no-op after success, an identical retry after
failure. -/
theorem upcoming_create_then_mark (now t : Int) (ce : Season → Bool)
    (g : GuildCfg) (db : EngineDb) (s : Season)
    (hen : g.enabled = true)
    (htog : toggleVal g.toggles s.game_slug ≠ 0)
    (hseen : isSeen db g.id s.game_slug s.season_key = false)
    (hst : s.starts_at = some t) (hfut : t > now) :
    processGuild now ce g db [s]
      = (if ce s then
          (markSeen db g.id s.game_slug s.season_key,
           [EngineStep.createCall g.id s.game_slug s.season_key,
            EngineStep.markAfterEvent g.id s.game_slug s.season_key])
         else (db, [EngineStep.createCall g.id s.game_slug s.season_key]))
    ∧ processGuild now ce g (processGuild now ce g db [s]).1 [s]
      = (if ce s then ((processGuild now ce g db [s]).1, [])
         else (db, [EngineStep.createCall g.id s.game_slug s.season_key])) := by
  have hbody : ∀ d : EngineDb, isSeen d g.id s.game_slug s.season_key = false →
      processSeason now ce g.id g.toggles d s
        = (if ce s then
            (markSeen d g.id s.game_slug s.season_key,
             [EngineStep.createCall g.id s.game_slug s.season_key,
              EngineStep.markAfterEvent g.id s.game_slug s.season_key])
           else (d, [EngineStep.createCall g.id s.game_slug s.season_key])) := by
    intro d hd
    unfold processSeason
    have hnp : ¬ (now - t > 86400) := by omega
    by_cases hc : ce s <;>
      simp [htog, hd, hst, hfut, hnp, hc]
  have hfirst : processGuild now ce g db [s]
      = (if ce s then
          (markSeen db g.id s.game_slug s.season_key,
           [EngineStep.createCall g.id s.game_slug s.season_key,
            EngineStep.markAfterEvent g.id s.game_slug s.season_key])
         else (db, [EngineStep.createCall g.id s.game_slug s.season_key])) := by
    unfold processGuild runSeasons runSeasons
    by_cases hc : ce s <;> simp [hen, hbody db hseen, hc]
  refine ⟨hfirst, ?_⟩
  by_cases hc : ce s
  · have h1 : (processGuild now ce g db [s]).1
        = markSeen db g.id s.game_slug s.season_key := by
      rw [hfirst]; simp [hc]
    rw [h1]
    unfold processGuild runSeasons runSeasons
    simp [hen, hc,
      processSeason_gated now ce g.id g.toggles _ s
        (Or.inr (isSeen_markSeen_self db g.id s.game_slug s.season_key))]
  · have h1 : (processGuild now ce g db [s]).1 = db := by
      rw [hfirst]; simp [hc]
    rw [h1, hfirst]
    simp [hc]

/-- Witness for C4 with a collaborator that fails: the triple remains
absent and the call is repeated on the second cycle. -/
theorem upcoming_create_then_mark_witness :
    processGuild 0 (fun _ => false) ⟨1, true, [("poe2", 1)]⟩ ⟨[]⟩
        [⟨"poe2", "Poe2", "S1", "S1", some 10, none, none, none⟩]
      = (⟨[]⟩, [EngineStep.createCall 1 "poe2" "S1"]) := by
  have h := upcoming_create_then_mark 0 10 (fun _ => false)
    ⟨1, true, [("poe2", 1)]⟩ ⟨[]⟩
    ⟨"poe2", "Poe2", "S1", "S1", some 10, none, none, none⟩
    rfl (by decide) rfl rfl (by decide)
  simpa using h.1

/-- C5: a season that passes the gates and started strictly more than one
day ago is marked seen with no event-creation call (bootstrap
suppression). -/
theorem bootstrap_suppression (now t : Int) (ce : Season → Bool)
    (g : GuildCfg) (db : EngineDb) (s : Season)
    (hen : g.enabled = true)
    (htog : toggleVal g.toggles s.game_slug ≠ 0)
    (hseen : isSeen db g.id s.game_slug s.season_key = false)
    (hst : s.starts_at = some t) (hpast : now - t > 86400) :
    processGuild now ce g db [s]
      = (markSeen db g.id s.game_slug s.season_key,
         [EngineStep.markBootstrap g.id s.game_slug s.season_key]) := by
  have hnup : ¬ (t > now) := by omega
  unfold processGuild runSeasons runSeasons processSeason
  simp [hen, htog, hseen, hst, hnup, hpast]

/-- Witness for C5: a season that started two days ago is marked seen
silently. -/
theorem bootstrap_suppression_witness :
    processGuild 172800 (fun _ => false) ⟨1, true, [("poe2", 1)]⟩ ⟨[]⟩
        [⟨"poe2", "Poe2", "S0", "S0", some 0, none, none, none⟩]
      = (⟨[(1, "poe2", "S0")]⟩,
         [EngineStep.markBootstrap 1 "poe2" "S0"]) := by
  have h := bootstrap_suppression 172800 0 (fun _ => false)
    ⟨1, true, [("poe2", 1)]⟩ ⟨[]⟩
    ⟨"poe2", "Poe2", "S0", "S0", some 0, none, none, none⟩
    rfl (by decide) rfl rfl (by decide)
  simpa [markSeen, isSeen] using h

/-- C10: a season with an absent (missing or unparseable) start timestamp
that passes the gates is classified as not upcoming, is not caught by the
one-day bootstrap rule, and is marked seen silently with no
event-creation call. -/
theorem unknown_start_marked_silently (now : Int) (ce : Season → Bool)
    (g : GuildCfg) (db : EngineDb) (s : Season)
    (hen : g.enabled = true)
    (htog : toggleVal g.toggles s.game_slug ≠ 0)
    (hseen : isSeen db g.id s.game_slug s.season_key = false)
    (hst : s.starts_at = none) :
    processGuild now ce g db [s]
      = (markSeen db g.id s.game_slug s.season_key,
         [EngineStep.markStarted g.id s.game_slug s.season_key]) := by
  unfold processGuild runSeasons runSeasons processSeason
  simp [hen, htog, hseen, hst]

/-- Witness for C10 at a concrete season without a start timestamp. -/
theorem unknown_start_marked_silently_witness :
    processGuild 0 (fun _ => true) ⟨1, true, [("poe2", 1)]⟩ ⟨[]⟩
        [⟨"poe2", "Poe2", "S?", "S?", none, none, none, none⟩]
      = (⟨[(1, "poe2", "S?")]⟩,
         [EngineStep.markStarted 1 "poe2" "S?"]) := by
  have h := unknown_start_marked_silently 0 (fun _ => true)
    ⟨1, true, [("poe2", 1)]⟩ ⟨[]⟩
    ⟨"poe2", "Poe2", "S?", "S?", none, none, none, none⟩
    rfl (by decide) rfl rfl
  simpa [markSeen, isSeen] using h

/-! ### Guild-attribution lemmas for the fault-injected engine -/

lemma processSeason_steps_gid (now : Int) (ce : Season → Bool) (gid : Nat)
    (toggles : List (String × Nat)) (db : EngineDb) (s : Season) :
    ∀ a ∈ (processSeason now ce gid toggles db s).2, a.gid = gid := by
  intro a ha
  unfold processSeason at ha
  split at ha
  · exact absurd ha (List.not_mem_nil a)
  · split at ha
    · exact absurd ha (List.not_mem_nil a)
    · rcases hst : s.starts_at with _ | t <;> rw [hst] at ha
      · simp at ha
        subst ha; rfl
      · by_cases hup : t > now
        · by_cases hc : ce s <;> simp only [hup, hc] at ha <;> simp at ha
          · rcases ha with rfl | rfl <;> rfl
          · subst ha; rfl
        · by_cases hp : now - t > 86400 <;> simp only [hup, hp] at ha <;> simp at ha <;>
            (subst ha; rfl)

lemma runSeasonsE_steps_gid (now : Int) (ce : Season → Bool) (gid : Nat)
    (toggles : List (String × Nat)) (faulty : Nat → String → String → Bool)
    (seasons : List Season) (db : EngineDb) :
    ∀ a ∈ (runSeasonsE now ce gid toggles faulty db seasons).2.1, a.gid = gid := by
  induction seasons generalizing db with
  | nil => intro a ha; exact absurd ha (List.not_mem_nil a)
  | cons s rest ih =>
    intro a ha
    unfold runSeasonsE at ha
    split at ha
    · exact ih db a ha
    · split at ha
      · exact absurd ha (List.not_mem_nil a)
      · rcases List.mem_append.mp ha with h | h
        · exact processSeason_steps_gid now ce gid toggles db s a h
        · exact ih _ a h

lemma processGuildE_steps_gid (now : Int) (ce : Season → Bool) (g : GuildCfg)
    (faulty : Nat → String → String → Bool) (db : EngineDb)
    (seasons : List Season) :
    ∀ a ∈ (processGuildE now ce g faulty db seasons).2.1, a.gid = g.id := by
  intro a ha
  unfold processGuildE at ha
  split at ha
  · exact runSeasonsE_steps_gid now ce g.id g.toggles faulty seasons db a ha
  · exact absurd ha (List.not_mem_nil a)

/-- C6 counterexample: within a single guild a fault raised while
processing the first season (the seen-lookup raises) aborts the
remaining seasons — the second season, which an unfaulted run marks
seen, is left untouched — contradicting the claimed per-season
isolation. -/
theorem season_fault_aborts_guild_remainder :
    (processGuildE 0 (fun _ => true) ⟨1, true, [("a", 1), ("b", 1)]⟩
        (fun _ slug _ => slug == "a") ⟨[]⟩
        [⟨"a", "A", "k1", "T", some (-200000), none, none, none⟩,
         ⟨"b", "B", "k2", "T", some (-200000), none, none, none⟩])
      = (⟨[]⟩, [], true)
    ∧ (processGuildE 0 (fun _ => true) ⟨1, true, [("a", 1), ("b", 1)]⟩
        (fun _ _ _ => false) ⟨[]⟩
        [⟨"a", "A", "k1", "T", some (-200000), none, none, none⟩,
         ⟨"b", "B", "k2", "T", some (-200000), none, none, none⟩])
      = (⟨[(1, "b", "k2"), (1, "a", "k1")]⟩,
         [EngineStep.markBootstrap 1 "a" "k1",
          EngineStep.markBootstrap 1 "b" "k2"], false) := by
  constructor <;> rfl

/-- C6 amended: a fault raised while processing one guild does not abort
the processing of the remaining guilds, and no fault propagates out of
the poll cycle (each guild's run is caught at the guild boundary): for
any fault pattern, any guild's actions in the cycle are exactly those of
its own full processing on the state the earlier guilds produced.
Within a single guild, however, a fault on one season aborts that
guild's remaining seasons (see the counterexample). -/
theorem guild_fault_isolation (now : Int) (ce : Season → Bool)
    (faulty : Nat → String → String → Bool) (gs : List GuildCfg)
    (g : GuildCfg) (db : EngineDb) (seasons : List Season)
    (hdistinct : ∀ g2 ∈ gs, g2.id ≠ g.id) :
    ((pollCycle now ce faulty (gs ++ [g]) db seasons).2.filter
        (fun a => a.gid == g.id))
      = (processGuildE now ce g faulty
          (pollCycle now ce faulty gs db seasons).1 seasons).2.1 := by
  induction gs generalizing db with
  | nil =>
    simp only [List.nil_append, pollCycle]
    rw [List.filter_append, List.filter_eq_self.mpr, List.filter_nil,
      List.append_nil]
    intro a ha
    simp [processGuildE_steps_gid now ce g faulty db seasons a ha]
  | cons g1 rest ih =>
    simp only [List.cons_append, pollCycle]
    rw [List.filter_append, List.filter_eq_nil_iff.mpr, List.nil_append]
    · exact ih _ (fun g2 h2 => hdistinct g2 (List.mem_cons_of_mem g1 h2))
    · intro a ha
      have := processGuildE_steps_gid now ce g1 faulty db seasons a ha
      have hne := hdistinct g1 (List.mem_cons_self g1 rest)
      simp [this, hne]

/-- Witness for C6's amended theorem: guild 1 faults on its first season,
guild 2 is still fully processed. -/
theorem guild_fault_isolation_witness :
    ((pollCycle 0 (fun _ => true) (fun gid _ _ => gid == 1)
        ([⟨1, true, [("a", 1)]⟩] ++ [⟨2, true, [("a", 1)]⟩]) ⟨[]⟩
        [⟨"a", "A", "k1", "T", some (-200000), none, none, none⟩]).2.filter
          (fun a => a.gid == 2))
      = (processGuildE 0 (fun _ => true) ⟨2, true, [("a", 1)]⟩
          (fun gid _ _ => gid == 1)
          (pollCycle 0 (fun _ => true) (fun gid _ _ => gid == 1)
            [⟨1, true, [("a", 1)]⟩] ⟨[]⟩
            [⟨"a", "A", "k1", "T", some (-200000), none, none, none⟩]).1
          [⟨"a", "A", "k1", "T", some (-200000), none, none, none⟩]).2.1 :=
  guild_fault_isolation 0 (fun _ => true) (fun gid _ _ => gid == 1)
    [⟨1, true, [("a", 1)]⟩] ⟨2, true, [("a", 1)]⟩ ⟨[]⟩
    [⟨"a", "A", "k1", "T", some (-200000), none, none, none⟩]
    (by decide)

/-- C7: a token is treated as valid only when its expiry is strictly
more than 60 seconds in the future.  With an in-memory token and durable
tokens (under every lookup key) whose expiries all clear at most 60
seconds, `_get_access_token` refuses them all and performs a live token
fetch, returning its outcome. -/
theorem token_sixty_second_margin (now e1 e2 : Int) (tokM tokD : String)
    (fr : Option (String × Int)) (hm : tokM ≠ "") (hd : tokD ≠ "")
    (he1 : e1 - now ≤ 60) (he2 : e2 - now ≤ 60) :
    ((getAccessToken now
        (some ⟨(some tokD, some e2), (some tokD, some e2), (some tokD, some e2)⟩)
        fr ⟨some tokM, some e1, none⟩).2.2).contains TokenStep.liveFetch = true
    ∧ (getAccessToken now
        (some ⟨(some tokD, some e2), (some tokD, some e2), (some tokD, some e2)⟩)
        fr ⟨some tokM, some e1, none⟩).1 = fr.map Prod.fst := by
  have hv1 : ¬ (e1 - now > 60) := by omega
  have hv2 : ¬ (e2 - now > 60) := by omega
  rcases fr with _ | ⟨tok, e⟩ <;>
    simp [getAccessToken, failBlocked, strTruthy, tokenValid, hm, hd, hv1, hv2]

/-- Witness for C7: a token expiring 30 seconds from now (in memory and
in storage) is rejected and the live fetch result is returned. -/
theorem token_sixty_second_margin_witness :
    ((getAccessToken 0
        (some ⟨(some "d", some 30), (some "d", some 30), (some "d", some 30)⟩)
        (some ("fresh", 3600)) ⟨some "m", some 30, none⟩).2.2).contains
          TokenStep.liveFetch = true
    ∧ (getAccessToken 0
        (some ⟨(some "d", some 30), (some "d", some 30), (some "d", some 30)⟩)
        (some ("fresh", 3600)) ⟨some "m", some 30, none⟩).1
      = some "fresh" := by
  have h := token_sixty_second_margin 0 30 30 "m" "d" (some ("fresh", 3600))
    (by decide) (by decide) (by decide) (by decide)
  exact ⟨h.1, h.2⟩

/-- C8: the token fetch circuit breaker.  (i) With no usable in-memory
token and no database, a failed live fetch returns null and sets the
fail-until timestamp 10 minutes (600 seconds) ahead.  (ii) While a
fail-until timestamp lies in the future, any call returns null
immediately with no storage read and no fetch, whatever the database or
the fetch would yield.  (iii) A successful fetch stores the token and
clears the backoff window. -/
theorem token_fetch_backoff (now now2 t e : Int) (tok : String)
    (mt : Option String) (me : Option Int) (a : Option String)
    (b : Option Int) (db2 : Option DbTokenRows)
    (fr2 : Option (String × Int))
    (hnv : (strTruthy mt && tokenValid now me) = false)
    (hblock : now2 < t) :
    getAccessToken now none none ⟨mt, me, none⟩
      = (none, ⟨mt, me, some (now + 600)⟩, [TokenStep.liveFetch])
    ∧ getAccessToken now2 db2 fr2 ⟨a, b, some t⟩ = (none, ⟨a, b, some t⟩, [])
    ∧ getAccessToken now none (some (tok, e)) ⟨mt, me, none⟩
      = (some tok, ⟨some tok, some e, none⟩, [TokenStep.liveFetch]) := by
  refine ⟨?_, ?_, ?_⟩
  · simp [getAccessToken, failBlocked, hnv]
  · simp [getAccessToken, failBlocked, hblock]
  · simp [getAccessToken, failBlocked, hnv]

/-- Witness for C8 at concrete times: a fetch failure at time 0 blocks a
call at time 300 (no storage read, no fetch), and a successful fetch
clears the window. -/
theorem token_fetch_backoff_witness :
    getAccessToken 0 none none ⟨none, none, none⟩
      = (none, ⟨none, none, some 600⟩, [TokenStep.liveFetch])
    ∧ getAccessToken 300
        (some ⟨(some "d", some 9999), (none, none), (none, none)⟩)
        (some ("fresh", 9999)) ⟨none, none, some 600⟩
      = (none, ⟨none, none, some 600⟩, [])
    ∧ getAccessToken 0 none (some ("fresh", 3600)) ⟨none, none, none⟩
      = (some "fresh", ⟨some "fresh", some 3600, none⟩,
         [TokenStep.liveFetch]) := by
  have h := token_fetch_backoff 0 300 600 3600 "fresh" none none none none
    (some ⟨(some "d", some 9999), (none, none), (none, none)⟩)
    (some ("fresh", 9999)) (by decide) (by decide)
  exact ⟨h.1, h.2.1, h.2.2⟩

/-- C9: for both cached resources, an entry whose expiry equals the
current time is treated as expired (freshness requires a strictly
greater expiry), so the read falls through to the live refetch; an entry
expiring strictly later is served from the cache. -/
theorem cache_expiry_is_strict (now : Int) (v : List RawGame)
    (w fs : List Season) (fg : List Game) :
    getCachedGames now (some (v, now)) fg = (fg, true)
    ∧ getCachedActiveSeasons now false (some (w, now)) fs = (fs, true)
    ∧ getCachedGames now (some (v, now + 1)) fg
      = (v.filterMap normalizeGame, false)
    ∧ getCachedActiveSeasons now false (some (w, now + 1)) fs
      = (w, false) := by
  refine ⟨?_, ?_, ?_, ?_⟩ <;>
    simp [getCachedGames, getCachedActiveSeasons]

end ArpgTimeline
